import Mathlib

/-!
Verification of the x402 payment-protocol core (Aptos-x402 repository).

The repository ships the buyer-side request wrapper (x402axios), the
seller-side payment middleware, and the facilitator client.  The source
tree available here contains the package index, an interactive demo
script and the middleware configuration; the protocol engine itself
(codec, route matcher, gatekeeper, buyer orchestrator, facilitator
client) is modelled from the specification, faithful to its words, and
the pieces that do appear in the source (the demo script reading of the
X-Payment-Response header, the paymentInfo field set, the route
configuration) are embedded from the source directly.

Wire values are modelled at the level of structured JSON values; the
mechanical base64/string serialization layer of the transport is not
re-modelled.
-/

/-- A structured JSON-like wire value.  The jfrac constructor stands for a
non-integral numeric literal, so that strict (non-coercing) integer
decoding is expressible. -/
inductive Jval : Type where
  | jstr (s : String)
  | jint (n : Int)
  | jfrac (num : Int) (den : Nat)
  | jbool (b : Bool)
  | jarr (xs : List Jval)
  | jobj (fields : List (String × Jval))

/-- Lookup of a field in a JSON object field list, first binding wins. -/
def jlookup (k : String) : List (String × Jval) → Option Jval
  | [] => none
  | (k', v) :: rest => if k = k' then some v else jlookup k rest

/-- Strict string reading: only a string literal decodes, no coercion. -/
def asStr : Jval → Option String
  | .jstr s => some s
  | _ => none

/-- Strict integer reading: only an exact integer literal decodes; a
fractional numeric value is refused rather than coerced. -/
def asInt : Jval → Option Int
  | .jint n => some n
  | _ => none

/-- Modelled from the spec: PaymentRequirements (section 3) — scheme,
network, recipient, amount in smallest ledger unit, resource, human
description, optional expiry. -/
structure PaymentRequirements where
  scheme : String
  network : String
  recipient : String
  amount : Int
  resource : String
  description : String
  expiry : Option Int
deriving DecidableEq, Repr

/-- Modelled from the spec: PaymentPayload (section 3) — references the
requirements it satisfies plus payer address, signature and nonce. -/
structure PaymentPayload where
  scheme : String
  network : String
  recipient : String
  amount : Int
  resource : String
  payer : String
  signature : String
  nonce : Int
deriving DecidableEq, Repr

/-- Modelled from the spec: VerifyResult — boolean validity plus a
machine-readable reason on failure. -/
structure VerifyResult where
  valid : Bool
  reason : Option String
deriving DecidableEq, Repr

/-- Modelled from the spec: SettleResult — success flag, transaction hash
on success, network identifier, error reason on failure. -/
structure SettleResult where
  success : Bool
  txHash : Option String
  network : String
  errorReason : Option String
deriving DecidableEq, Repr

/-- PaymentInfo, the buyer-facing summary surfaced by x402axios; its
field set (transactionHash, amount, recipient, settled) is read off the
demo script in the source. -/
structure PaymentInfo where
  transactionHash : String
  amount : Int
  recipient : String
  settled : Bool
deriving DecidableEq, Repr

/-- Modelled from the spec: PayloadCodec encoding of a PaymentPayload to
the structured wire value carried in the X-PAYMENT request header. -/
def encodePayload (p : PaymentPayload) : Jval :=
  .jobj [("scheme", .jstr p.scheme),
         ("network", .jstr p.network),
         ("recipient", .jstr p.recipient),
         ("amount", .jint p.amount),
         ("resource", .jstr p.resource),
         ("payer", .jstr p.payer),
         ("signature", .jstr p.signature),
         ("nonce", .jint p.nonce)]

/-- Modelled from the spec: strict PayloadCodec decoding — every required
field must be present with its exact type (amount as an exact integer),
otherwise the decode fails (EncodingError). -/
def decodePayload : Jval → Option PaymentPayload
  | .jobj fields => do
    let scheme ← (jlookup "scheme" fields).bind asStr
    let network ← (jlookup "network" fields).bind asStr
    let recipient ← (jlookup "recipient" fields).bind asStr
    let amount ← (jlookup "amount" fields).bind asInt
    let resource ← (jlookup "resource" fields).bind asStr
    let payer ← (jlookup "payer" fields).bind asStr
    let signature ← (jlookup "signature" fields).bind asStr
    let nonce ← (jlookup "nonce" fields).bind asInt
    pure ⟨scheme, network, recipient, amount, resource, payer, signature, nonce⟩
  | _ => none

/-- Modelled from the spec: encoding of PaymentRequirements for the 402
challenge body (scheme, network, recipient, amount, resource,
description; expiry only when present). -/
def encodeRequirements (r : PaymentRequirements) : Jval :=
  .jobj ([("scheme", Jval.jstr r.scheme),
          ("network", Jval.jstr r.network),
          ("recipient", Jval.jstr r.recipient),
          ("amount", Jval.jint r.amount),
          ("resource", Jval.jstr r.resource),
          ("description", Jval.jstr r.description)] ++
         (match r.expiry with
          | some e => [("expiry", Jval.jint e)]
          | none => []))

/-- Modelled from the spec: strict decoding of PaymentRequirements from a
challenge body entry. -/
def decodeRequirements : Jval → Option PaymentRequirements
  | .jobj fields => do
    let scheme ← (jlookup "scheme" fields).bind asStr
    let network ← (jlookup "network" fields).bind asStr
    let recipient ← (jlookup "recipient" fields).bind asStr
    let amount ← (jlookup "amount" fields).bind asInt
    let resource ← (jlookup "resource" fields).bind asStr
    let description ← (jlookup "description" fields).bind asStr
    let expiry : Option Int :=
      match jlookup "expiry" fields with
      | some (.jint e) => some e
      | _ => none
    pure ⟨scheme, network, recipient, amount, resource, description, expiry⟩
  | _ => none

example : decodePayload (encodePayload ⟨"exact", "testnet", "0xR", 10, "/api/protected/weather", "0xP", "sig", 7⟩) = some ⟨"exact", "testnet", "0xR", 10, "/api/protected/weather", "0xP", "sig", 7⟩ := by rfl

/-- One entry of the route configuration table: a path pattern mapped to
price (a decimal string, as in the source configuration), network and
description.  Field set embedded from the middleware configuration in
the source. -/
structure RouteEntry where
  pattern : String
  price : String
  network : String
  description : String
deriving DecidableEq, Repr

/-- Character-list prefix test, first argument a prefix of the second. -/
def listIsPrefix : List Char → List Char → Bool
  | [], _ => true
  | _ :: _, [] => false
  | p :: ps, c :: cs => p = c && listIsPrefix ps cs

/-- Modelled from the spec: RouteMatcher pattern test — an exact path
match, or a wildcard pattern ending in a star matching any path that
starts with the stem (as the source configuration patterns such as the
premium wildcard route use). -/
def patternMatches (pat path : String) : Bool :=
  match pat.data.getLast? with
  | some c =>
    if c = Char.ofNat 42 then listIsPrefix pat.data.dropLast path.data
    else pat = path
  | none => pat = path

/-- Modelled from the spec: RouteMatcher — deterministic first-match
semantics over the configured table, in declaration order. -/
def routeMatch (routes : List RouteEntry) (path : String) : Option RouteEntry :=
  routes.find? (fun r => patternMatches r.pattern path)

/-- Modelled from the spec: ConfigError — malformed route price or
unknown network identifier. -/
inductive ConfigError : Type where
  | badPrice (s : String)
  | badNetwork (s : String)
deriving DecidableEq, Repr

/-- Modelled from the spec: the network identifiers the Aptos tooling of
the source accepts. -/
def knownNetwork (n : String) : Bool :=
  n = "mainnet" || n = "testnet" || n = "devnet"

/-- Decimal value of a digit character, when it is one. -/
def digitVal (c : Char) : Option Nat :=
  if 48 ≤ c.toNat ∧ c.toNat ≤ 57 then some (c.toNat - 48) else none

/-- Accumulating decimal parse over a character list, failing on any
non-digit character. -/
def parseDigits : Nat → List Char → Option Nat
  | acc, [] => some acc
  | acc, c :: cs =>
    match digitVal c with
    | some d => parseDigits (acc * 10 + d) cs
    | none => none

/-- Modelled from the spec: numeric parsing of a route price string —
nonempty and all decimal digits, as the decimal Octa amounts of the
source configuration. -/
def parsePrice (s : String) : Option Nat :=
  match s.data with
  | [] => none
  | cs => parseDigits 0 cs

/-- Modelled from the spec: ChallengeBuilder — a pure function from a
matched route and the resource path to PaymentRequirements, failing with
ConfigError on a non-numeric price or an unknown network identifier. -/
def buildChallenge (recipient : String) (r : RouteEntry) (resourcePath : String) :
    Except ConfigError PaymentRequirements :=
  match parsePrice r.price with
  | none => .error (.badPrice r.price)
  | some amt =>
    if knownNetwork r.network then
      .ok ⟨"exact", r.network, recipient, (amt : Int), resourcePath, r.description, none⟩
    else
      .error (.badNetwork r.network)

/-- Modelled from the spec: the facilitator verification semantics — any
mismatch between payload and requirements is a verification failure with
a machine-readable reason, never a silent adjustment; then signature and
nonce freshness are checked. -/
def facilitatorVerify (reqs : PaymentRequirements) (p : PaymentPayload)
    (nonceUsed : Bool) (sigOk : Bool) : VerifyResult :=
  if p.network ≠ reqs.network then ⟨false, some "wrong network"⟩
  else if p.amount < reqs.amount then ⟨false, some "insufficient amount"⟩
  else if p.amount ≠ reqs.amount ∨ p.resource ≠ reqs.resource ∨
          p.recipient ≠ reqs.recipient ∨ p.scheme ≠ reqs.scheme then
    ⟨false, some "payload does not match requirements"⟩
  else if ¬ sigOk then ⟨false, some "bad signature"⟩
  else if nonceUsed then ⟨false, some "nonce already used"⟩
  else ⟨true, none⟩

/-- Outcome of one transport attempt against the facilitator: either a
transport/timeout failure (FacilitatorUnavailable) or a delivered
protocol-level result. -/
inductive FacOutcome (α : Type) : Type where
  | unavailable
  | ok (r : α)
deriving DecidableEq, Repr

/-- Modelled from the spec: the FacilitatorClient retry policy for verify
and settle — at most one additional attempt, taken only when the first
attempt fails with FacilitatorUnavailable; a delivered result (positive
or negative) is returned as is.  The arguments are the outcomes the
transport would produce on the first and on the second attempt; the
returned number counts the attempts actually made. -/
def callWithRetry {α : Type} (first second : FacOutcome α) : FacOutcome α × Nat :=
  match first with
  | .unavailable => (second, 2)
  | .ok r => (.ok r, 1)


/-- An HTTP request as the gatekeeper sees it: a path and an optional
X-PAYMENT header value (at the structured wire-value level). -/
structure Request where
  path : String
  paymentHeader : Option Jval

/-- An HTTP response: status, JSON body, and an optional
X-Payment-Response header value. -/
structure HttpResponse where
  status : Nat
  body : Jval
  xPaymentResponse : Option Jval

/-- Side effects observable during one gatekeeper run, in order. -/
inductive Event : Type where
  | verifyCall
  | handlerCall
  | settleCall
deriving DecidableEq, Repr

/-- The result of one gatekeeper run: the response sent to the buyer and
the ordered trace of facilitator/handler invocations. -/
structure GateRun where
  response : HttpResponse
  events : List Event

/-- Modelled from the spec: the 402 challenge body — a JSON object
listing the accepted PaymentRequirements. -/
def challengeBody (rs : List PaymentRequirements) : Jval :=
  .jobj [("accepts", .jarr (rs.map encodeRequirements))]

/-- A machine-readable error body with a tag and a reason. -/
def errBody (tag reason : String) : Jval :=
  .jobj [("error", .jstr tag), ("reason", .jstr reason)]

/-- Modelled from the spec: the settlement result attached to the
response, a JSON object whose settlement field carries txHash and
networkId — the shape the demo script in the source decodes from the
X-Payment-Response header. -/
def settlementResponseJson (sr : SettleResult) : Jval :=
  .jobj [("success", .jbool sr.success),
         ("settlement", .jobj
           ((match sr.txHash with
             | some h => [("txHash", Jval.jstr h)]
             | none => []) ++ [("networkId", Jval.jstr sr.network)]))]

/-- Modelled from the spec: the SellerGatekeeper state machine for one
request.  The protected handler is a function of the request; the
facilitator verify and settle outcomes (after the FacilitatorClient
retry policy) are oracles.  Branches, in order: unmatched path is passed
to the handler untouched; a configuration error is a server error; a
matched path without payment header gets the 402 challenge; a malformed
header is an EncodingError 402; a transport failure during verification
is a retryable 503, a negative VerifyResult a 402 with its reason; after
successful verification the handler runs, then settlement: on settlement
success the handler response is delivered with the settlement header
attached, on settlement failure the handler response is discarded and a
402 with the settlement error is returned. -/
def gatekeeper (recipient : String) (routes : List RouteEntry) (req : Request)
    (verifyO : FacOutcome VerifyResult) (handler : Request → HttpResponse)
    (settleO : FacOutcome SettleResult) : GateRun :=
  match routeMatch routes req.path with
  | none => ⟨handler req, [.handlerCall]⟩
  | some route =>
    match buildChallenge recipient route req.path with
    | .error _ => ⟨⟨500, errBody "CONFIG_ERROR" "malformed route configuration", none⟩, []⟩
    | .ok reqs =>
      match req.paymentHeader with
      | none => ⟨⟨402, challengeBody [reqs], none⟩, []⟩
      | some hdr =>
        match decodePayload hdr with
        | none => ⟨⟨402, errBody "ENCODING_ERROR" "malformed payment header", none⟩, []⟩
        | some _payload =>
          match verifyO with
          | .unavailable =>
            ⟨⟨503, errBody "FACILITATOR_UNAVAILABLE" "facilitator unreachable", none⟩,
             [.verifyCall]⟩
          | .ok vr =>
            if vr.valid then
              let resp := handler req
              match settleO with
              | .unavailable =>
                ⟨⟨402, errBody "SETTLEMENT_FAILED" "unconfirmed", none⟩,
                 [.verifyCall, .handlerCall, .settleCall]⟩
              | .ok sr =>
                if sr.success then
                  ⟨⟨resp.status, resp.body, some (settlementResponseJson sr)⟩,
                   [.verifyCall, .handlerCall, .settleCall]⟩
                else
                  ⟨⟨402, errBody "SETTLEMENT_FAILED" (sr.errorReason.getD "settlement failed"),
                     none⟩,
                   [.verifyCall, .handlerCall, .settleCall]⟩
            else
              ⟨⟨402, errBody "REJECTED" (vr.reason.getD "verification failed"), none⟩,
               [.verifyCall]⟩

/-- Helper for the ordering property: true when, scanning the trace from
the left, no settle call occurs before a handler call has been seen. -/
def noEarlySettleAux : Bool → List Event → Bool
  | _, [] => true
  | seen, e :: rest =>
    match e with
    | .settleCall => seen && noEarlySettleAux seen rest
    | .handlerCall => noEarlySettleAux true rest
    | .verifyCall => noEarlySettleAux seen rest

/-- Every settle call in the trace is strictly preceded by a handler
call. -/
def noEarlySettle (evs : List Event) : Bool :=
  noEarlySettleAux false evs

/-- Embedded from the source (demo script): the X-Payment-Response header
decoding — parse the header value as JSON and read settlement.txHash and
settlement.networkId, failing when either is absent. -/
def decodeSettlementHeader : Jval → Option (String × String)
  | .jobj fields =>
    match jlookup "settlement" fields with
    | some (.jobj sf) =>
      match jlookup "txHash" sf, jlookup "networkId" sf with
      | some (.jstr tx), some (.jstr nid) => some (tx, nid)
      | _, _ => none
    | _ => none
  | _ => none

/-- Reading of the top-level success flag of the settlement response
object; anything other than a true boolean counts as not settled. -/
def readSuccess : Jval → Bool
  | .jobj fields =>
    match jlookup "success" fields with
    | some (.jbool b) => b
    | _ => false
  | _ => false

/-- Reading of the machine-readable reason of an error body, with a
generic fallback. -/
def readReason : Jval → String
  | .jobj fields =>
    match jlookup "reason" fields with
    | some (.jstr s) => s
    | _ => "payment failed"
  | _ => "payment failed"

/-- Modelled from the spec: PaymentPayloadBuilder — the unsigned
authorization exactly mirrors the requirements fields and carries the
freshly generated nonce supplied by the (external) nonce source; the
signature is filled in by the external signer. -/
def buildUnsigned (reqs : PaymentRequirements) (payer : String) (nonce : Int) :
    PaymentPayload :=
  ⟨reqs.scheme, reqs.network, reqs.recipient, reqs.amount, reqs.resource, payer, "", nonce⟩

/-- Modelled from the spec: buyer-side parsing of the 402 challenge body —
the first entry of the accepted-requirements list, strictly decoded. -/
def decodeChallengeBody : Jval → Option PaymentRequirements
  | .jobj fields =>
    match jlookup "accepts" fields with
    | some (.jarr (r :: _)) => decodeRequirements r
    | _ => none
  | _ => none

/-- Modelled from the spec: derivation of the buyer-facing PaymentInfo
from the settlement header of the successful retry response and the
requirements that were paid — transaction hash from the header, amount
and recipient from the requirements, settled flag from the success
flag. -/
def extractPaymentInfo (reqs : PaymentRequirements) (resp : HttpResponse) :
    Option PaymentInfo :=
  match resp.xPaymentResponse with
  | none => none
  | some j =>
    match decodeSettlementHeader j with
    | none => none
    | some (tx, _) => some ⟨tx, reqs.amount, reqs.recipient, readSuccess j⟩

/-- Observable buyer-side steps of one orchestrated exchange, in order. -/
inductive BuyerEvent : Type where
  | builtPayment
  | signedPayment
  | retrySent
deriving DecidableEq, Repr

/-- Terminal outcome of one buyer-side orchestrated exchange. -/
inductive BuyerOutcome : Type where
  | ok (body : Jval) (paymentInfo : Option PaymentInfo)
  | failed (reason : String)
  | encodingError
  | signingError

/-- Modelled from the spec: the BuyerOrchestrator state machine.  The
first response to the original request is given; the seller's response
to the retried request carrying a payment payload is an oracle, as is
the external signer.  A 200 first response is terminal OK with no
payment attempted; a 402 first response is parsed (parse failure is an
EncodingError, no retry), exactly one payload is built and signed
(signer failure is a BuyerSigningError, no retry), the request is
retried exactly once, and the second response is terminal: 200 is OK
with the settlement info decoded from the header, anything else is
FAILED with the seller's stated reason — never a further payment. -/
def orchestrate (first : HttpResponse) (respond : PaymentPayload → HttpResponse)
    (signer : PaymentPayload → Option PaymentPayload)
    (payer : String) (nonce : Int) : BuyerOutcome × List BuyerEvent :=
  if first.status = 200 then
    (.ok first.body none, [])
  else if first.status = 402 then
    match decodeChallengeBody first.body with
    | none => (.encodingError, [])
    | some reqs =>
      match signer (buildUnsigned reqs payer nonce) with
      | none => (.signingError, [.builtPayment])
      | some payload =>
        if (respond payload).status = 200 then
          (.ok (respond payload).body (extractPaymentInfo reqs (respond payload)),
           [.builtPayment, .signedPayment, .retrySent])
        else
          (.failed (readReason (respond payload).body),
           [.builtPayment, .signedPayment, .retrySent])
  else
    (.failed (readReason first.body), [])

/-- C4: the PayloadCodec is bijective on its declared domain — decoding
an encoded PaymentPayload returns it unchanged for every payload value —
and decoding never coerces types: whenever a wire object decodes to a
payload, its amount field is the exact integer literal of the decoded
amount. -/
theorem payloadCodec_roundTrip_exact :
    (∀ p : PaymentPayload, decodePayload (encodePayload p) = some p) ∧
    (∀ (fields : List (String × Jval)) (p : PaymentPayload),
      decodePayload (.jobj fields) = some p →
      jlookup "amount" fields = some (.jint p.amount)) := by
  constructor
  · intro p
    rfl
  · intro fields p h
    simp only [decodePayload, Option.bind_eq_bind, Option.bind_eq_some, Option.pure_def,
      Option.some.injEq] at h
    obtain ⟨s, hs, n, hn, rc, hrc, a, ha, rs, hrs, py, hpy, sg, hsg, nn, hnn, hp⟩ := h
    obtain ⟨ja, hja, hai⟩ := ha
    cases ja with
    | jint m =>
      simp only [asInt, Option.some.injEq] at hai
      subst hai
      rw [hja, ← hp]
    | jstr s => simp [asInt] at hai
    | jfrac a b => simp [asInt] at hai
    | jbool b => simp [asInt] at hai
    | jarr xs => simp [asInt] at hai
    | jobj fs => simp [asInt] at hai

/-- Witness for C4 at a concrete payload and its wire object. -/
theorem payloadCodec_roundTrip_exact_witness :
    jlookup "amount"
      [("scheme", Jval.jstr "exact"), ("network", Jval.jstr "testnet"),
       ("recipient", Jval.jstr "0xR"), ("amount", Jval.jint 10),
       ("resource", Jval.jstr "/api/protected/weather"), ("payer", Jval.jstr "0xP"),
       ("signature", Jval.jstr "sig"), ("nonce", Jval.jint 7)] =
      some (Jval.jint 10) :=
  payloadCodec_roundTrip_exact.2 _
    ⟨"exact", "testnet", "0xR", 10, "/api/protected/weather", "0xP", "sig", 7⟩ (by rfl)

/-- C5: the unsigned authorization built by PaymentPayloadBuilder mirrors
the requirements exactly (amount, resource, network) and carries the
supplied fresh nonce; and any payload whose amount, resource or network
disagrees with the requirements is rejected by verification, never
silently adjusted. -/
theorem payloadBuilder_mirror_and_mismatch_rejected :
    (∀ (reqs : PaymentRequirements) (payer : String) (nonce : Int),
        (buildUnsigned reqs payer nonce).amount = reqs.amount ∧
        (buildUnsigned reqs payer nonce).resource = reqs.resource ∧
        (buildUnsigned reqs payer nonce).network = reqs.network ∧
        (buildUnsigned reqs payer nonce).nonce = nonce) ∧
    (∀ (reqs : PaymentRequirements) (p : PaymentPayload) (nonceUsed sigOk : Bool),
        (p.amount ≠ reqs.amount ∨ p.resource ≠ reqs.resource ∨ p.network ≠ reqs.network) →
        (facilitatorVerify reqs p nonceUsed sigOk).valid = false) := by
  constructor
  · intro reqs payer nonce
    exact ⟨rfl, rfl, rfl, rfl⟩
  · intro reqs p nonceUsed sigOk h
    unfold facilitatorVerify
    split
    · rfl
    · split
      · rfl
      · split
        · rfl
        · rename_i hnet hlt hmis
          exfalso
          push_neg at hnet hmis
          rcases h with h | h | h
          · exact h hmis.1
          · exact h hmis.2.1
          · exact h hnet

/-- Witness for C5 at concrete requirements and a payload whose amount is
too small. -/
theorem payloadBuilder_mirror_and_mismatch_rejected_witness :
    (facilitatorVerify
      ⟨"exact", "testnet", "0xR", 10, "/api/protected/weather", "weather", none⟩
      ⟨"exact", "testnet", "0xR", 3, "/api/protected/weather", "0xP", "sig", 7⟩
      false true).valid = false :=
  payloadBuilder_mirror_and_mismatch_rejected.2
    ⟨"exact", "testnet", "0xR", 10, "/api/protected/weather", "weather", none⟩
    ⟨"exact", "testnet", "0xR", 3, "/api/protected/weather", "0xP", "sig", 7⟩
    false true (Or.inl (by decide))

/-- C7: the FacilitatorClient verify and settle calls make at most one
additional attempt (never more than two in total), the second attempt
happens only when the first fails with FacilitatorUnavailable, and a
delivered VerifyResult or SettleResult — negative included — is returned
from the single first attempt without any retry. -/
theorem facilitatorClient_retry_policy :
    (∀ (first second : FacOutcome VerifyResult),
        (callWithRetry first second).2 ≤ 2 ∧
        (∀ r : VerifyResult, first = .ok r → callWithRetry first second = (.ok r, 1)) ∧
        (first = .unavailable → callWithRetry first second = (second, 2))) ∧
    (∀ (first second : FacOutcome SettleResult),
        (callWithRetry first second).2 ≤ 2 ∧
        (∀ r : SettleResult, first = .ok r → callWithRetry first second = (.ok r, 1)) ∧
        (first = .unavailable → callWithRetry first second = (second, 2))) := by
  refine ⟨fun first second => ?_, fun first second => ?_⟩ <;>
    cases first <;>
      exact ⟨by simp [callWithRetry], fun r hr => by simp_all [callWithRetry],
             fun hu => by simp_all [callWithRetry]⟩

/-- Witness for C7: a negative VerifyResult on the first attempt is
returned as is, with exactly one attempt made. -/
theorem facilitatorClient_retry_policy_witness :
    callWithRetry (FacOutcome.ok ⟨false, some "insufficient amount"⟩)
        (FacOutcome.ok (⟨true, none⟩ : VerifyResult)) =
      (FacOutcome.ok ⟨false, some "insufficient amount"⟩, 1) :=
  ((facilitatorClient_retry_policy.1 _ _).2.1 ⟨false, some "insufficient amount"⟩ rfl)

/-- C2: in every gatekeeper run, a settle call to the facilitator is
issued only after the protected handler has been invoked and produced
its response — no trace places a settle call before a handler call. -/
theorem gatekeeper_settles_only_after_handler
    (recipient : String) (routes : List RouteEntry) (req : Request)
    (verifyO : FacOutcome VerifyResult) (handler : Request → HttpResponse)
    (settleO : FacOutcome SettleResult) :
    noEarlySettle (gatekeeper recipient routes req verifyO handler settleO).events = true := by
  unfold gatekeeper
  split
  · rfl
  · split
    · rfl
    · split
      · rfl
      · split
        · rfl
        · split
          · rfl
          · split
            · split
              · rfl
              · split <;> rfl
            · rfl

/-- C8: when the RouteMatcher finds no route for the request path, the
gatekeeper returns exactly the protected handler's response on the
unmodified request, with the handler invocation as the only observable
event — no 402 and no facilitator call. -/
theorem gatekeeper_unmatched_passthrough
    (recipient : String) (routes : List RouteEntry) (req : Request)
    (verifyO : FacOutcome VerifyResult) (handler : Request → HttpResponse)
    (settleO : FacOutcome SettleResult)
    (hnone : routeMatch routes req.path = none) :
    gatekeeper recipient routes req verifyO handler settleO =
      ⟨handler req, [Event.handlerCall]⟩ := by
  unfold gatekeeper
  rw [hnone]

/-- Witness for C8: an unmatched public path on the route table of the
source configuration is passed through to the handler untouched. -/
theorem gatekeeper_unmatched_passthrough_witness :
    gatekeeper "0xRECIPIENT"
        [⟨"/api/protected/weather", "10", "testnet",
          "Access to weather data API (0.00000001 APT)"⟩]
        ⟨"/api/public/ping", none⟩ FacOutcome.unavailable
        (fun _ => ⟨200, Jval.jobj [("pong", Jval.jbool true)], none⟩)
        FacOutcome.unavailable =
      ⟨⟨200, Jval.jobj [("pong", Jval.jbool true)], none⟩, [Event.handlerCall]⟩ :=
  gatekeeper_unmatched_passthrough _ _ _ _ _ _ (by decide)

/-- C3: when verification succeeded but settlement fails, the gatekeeper
discards the protected handler's response entirely and returns a 402
carrying the settlement error reason, with no settlement header — the
resource is never delivered. -/
theorem gatekeeper_settlement_failure_withholds
    (recipient : String) (routes : List RouteEntry) (req : Request)
    (route : RouteEntry) (reqs : PaymentRequirements) (hdr : Jval)
    (payload : PaymentPayload) (vr : VerifyResult) (sr : SettleResult)
    (handler : Request → HttpResponse)
    (hmatch : routeMatch routes req.path = some route)
    (hcfg : buildChallenge recipient route req.path = Except.ok reqs)
    (hhdr : req.paymentHeader = some hdr)
    (hdec : decodePayload hdr = some payload)
    (hval : vr.valid = true)
    (hfail : sr.success = false) :
    gatekeeper recipient routes req (.ok vr) handler (.ok sr) =
      ⟨⟨402, errBody "SETTLEMENT_FAILED" (sr.errorReason.getD "settlement failed"), none⟩,
       [Event.verifyCall, Event.handlerCall, Event.settleCall]⟩ := by
  simp only [gatekeeper, hmatch, hcfg, hhdr, hdec, hval, hfail]
  simp

/-- Witness for C3 at the source route configuration, a decodable
payment header, a positive verification and a failed settlement. -/
theorem gatekeeper_settlement_failure_withholds_witness :
    gatekeeper "0xRECIPIENT"
        [⟨"/api/protected/weather", "10", "testnet",
          "Access to weather data API (0.00000001 APT)"⟩]
        ⟨"/api/protected/weather",
         some (encodePayload ⟨"exact", "testnet", "0xRECIPIENT", 10,
                              "/api/protected/weather", "0xPAYER", "sig", 7⟩)⟩
        (FacOutcome.ok ⟨true, none⟩)
        (fun _ => ⟨200, Jval.jobj [("temp", Jval.jint 72)], none⟩)
        (FacOutcome.ok ⟨false, none, "testnet", some "ledger rejected"⟩) =
      ⟨⟨402, errBody "SETTLEMENT_FAILED" "ledger rejected", none⟩,
       [Event.verifyCall, Event.handlerCall, Event.settleCall]⟩ :=
  gatekeeper_settlement_failure_withholds _ _ _
    ⟨"/api/protected/weather", "10", "testnet",
     "Access to weather data API (0.00000001 APT)"⟩
    ⟨"exact", "testnet", "0xRECIPIENT", 10, "/api/protected/weather",
     "Access to weather data API (0.00000001 APT)", none⟩
    _ _ ⟨true, none⟩ ⟨false, none, "testnet", some "ledger rejected"⟩ _
    (by decide) (by rfl) rfl (by rfl) rfl rfl

/-- C6: in the verifying state, a delivered negative VerifyResult yields
a 402 response carrying the VerifyResult reason, while a
FacilitatorUnavailable transport failure yields a retryable 503 service
error, which is not 402 — the two failure kinds are kept distinct. -/
theorem gatekeeper_verify_failure_distinction
    (recipient : String) (routes : List RouteEntry) (req : Request)
    (route : RouteEntry) (reqs : PaymentRequirements) (hdr : Jval)
    (payload : PaymentPayload) (handler : Request → HttpResponse)
    (settleO : FacOutcome SettleResult)
    (hmatch : routeMatch routes req.path = some route)
    (hcfg : buildChallenge recipient route req.path = Except.ok reqs)
    (hhdr : req.paymentHeader = some hdr)
    (hdec : decodePayload hdr = some payload) :
    (∀ vr : VerifyResult, vr.valid = false →
      gatekeeper recipient routes req (.ok vr) handler settleO =
        ⟨⟨402, errBody "REJECTED" (vr.reason.getD "verification failed"), none⟩,
         [Event.verifyCall]⟩) ∧
    gatekeeper recipient routes req .unavailable handler settleO =
      ⟨⟨503, errBody "FACILITATOR_UNAVAILABLE" "facilitator unreachable", none⟩,
       [Event.verifyCall]⟩ ∧
    (503 : Nat) ≠ 402 := by
  refine ⟨fun vr hvr => ?_, ?_, by decide⟩
  · simp only [gatekeeper, hmatch, hcfg, hhdr, hdec, hvr]
    simp
  · simp only [gatekeeper, hmatch, hcfg, hhdr, hdec]

/-- Witness for C6 at the source route configuration: a negative
VerifyResult with an insufficient-amount reason yields 402 with that
reason, and a transport failure yields 503. -/
theorem gatekeeper_verify_failure_distinction_witness :
    (gatekeeper "0xRECIPIENT"
        [⟨"/api/protected/weather", "10", "testnet",
          "Access to weather data API (0.00000001 APT)"⟩]
        ⟨"/api/protected/weather",
         some (encodePayload ⟨"exact", "testnet", "0xRECIPIENT", 3,
                              "/api/protected/weather", "0xPAYER", "sig", 7⟩)⟩
        (FacOutcome.ok ⟨false, some "insufficient amount"⟩)
        (fun _ => ⟨200, Jval.jobj [("temp", Jval.jint 72)], none⟩)
        FacOutcome.unavailable =
      ⟨⟨402, errBody "REJECTED" "insufficient amount", none⟩, [Event.verifyCall]⟩) ∧
    gatekeeper "0xRECIPIENT"
        [⟨"/api/protected/weather", "10", "testnet",
          "Access to weather data API (0.00000001 APT)"⟩]
        ⟨"/api/protected/weather",
         some (encodePayload ⟨"exact", "testnet", "0xRECIPIENT", 3,
                              "/api/protected/weather", "0xPAYER", "sig", 7⟩)⟩
        FacOutcome.unavailable
        (fun _ => ⟨200, Jval.jobj [("temp", Jval.jint 72)], none⟩)
        FacOutcome.unavailable =
      ⟨⟨503, errBody "FACILITATOR_UNAVAILABLE" "facilitator unreachable", none⟩,
       [Event.verifyCall]⟩ :=
  ⟨(gatekeeper_verify_failure_distinction _ _ _
      ⟨"/api/protected/weather", "10", "testnet",
       "Access to weather data API (0.00000001 APT)"⟩
      ⟨"exact", "testnet", "0xRECIPIENT", 10, "/api/protected/weather",
       "Access to weather data API (0.00000001 APT)", none⟩
      _ ⟨"exact", "testnet", "0xRECIPIENT", 3, "/api/protected/weather", "0xPAYER", "sig", 7⟩
      _ _ (by decide) (by rfl) rfl (by rfl)).1 ⟨false, some "insufficient amount"⟩ rfl,
   (gatekeeper_verify_failure_distinction _ _ _
      ⟨"/api/protected/weather", "10", "testnet",
       "Access to weather data API (0.00000001 APT)"⟩
      ⟨"exact", "testnet", "0xRECIPIENT", 10, "/api/protected/weather",
       "Access to weather data API (0.00000001 APT)", none⟩
      _ ⟨"exact", "testnet", "0xRECIPIENT", 3, "/api/protected/weather", "0xPAYER", "sig", 7⟩
      _ _ (by decide) (by rfl) rfl (by rfl)).2.1⟩

/-- C9: a request matching a configured route and carrying no payment
header gets a 402 response whose JSON body lists the accepted
PaymentRequirements built from the route — scheme, network, recipient,
amount, resource and description — and neither the protected handler nor
the facilitator is invoked (the event trace is empty). -/
theorem gatekeeper_challenge_on_missing_payment
    (recipient : String) (routes : List RouteEntry) (req : Request)
    (route : RouteEntry) (reqs : PaymentRequirements)
    (verifyO : FacOutcome VerifyResult) (handler : Request → HttpResponse)
    (settleO : FacOutcome SettleResult)
    (hmatch : routeMatch routes req.path = some route)
    (hcfg : buildChallenge recipient route req.path = Except.ok reqs)
    (hnohdr : req.paymentHeader = none) :
    gatekeeper recipient routes req verifyO handler settleO =
      ⟨⟨402, challengeBody [reqs], none⟩, []⟩ ∧
    challengeBody [reqs] =
      Jval.jobj [("accepts", Jval.jarr [Jval.jobj
        [("scheme", Jval.jstr reqs.scheme),
         ("network", Jval.jstr reqs.network),
         ("recipient", Jval.jstr reqs.recipient),
         ("amount", Jval.jint reqs.amount),
         ("resource", Jval.jstr reqs.resource),
         ("description", Jval.jstr reqs.description)]])] := by
  have hexp : reqs.expiry = none := by
    unfold buildChallenge at hcfg
    split at hcfg
    · exact Except.noConfusion hcfg
    · split at hcfg
      · injection hcfg with h
        subst h
        rfl
      · exact Except.noConfusion hcfg
  constructor
  · simp only [gatekeeper, hmatch, hcfg, hnohdr]
  · simp [challengeBody, encodeRequirements, hexp]

/-- Witness for C9 at the source route configuration and a request with
no payment header. -/
theorem gatekeeper_challenge_on_missing_payment_witness :
    gatekeeper "0xRECIPIENT"
        [⟨"/api/protected/weather", "10", "testnet",
          "Access to weather data API (0.00000001 APT)"⟩]
        ⟨"/api/protected/weather", none⟩ FacOutcome.unavailable
        (fun _ => ⟨200, Jval.jobj [("temp", Jval.jint 72)], none⟩)
        FacOutcome.unavailable =
      ⟨⟨402, challengeBody
          [⟨"exact", "testnet", "0xRECIPIENT", 10, "/api/protected/weather",
            "Access to weather data API (0.00000001 APT)", none⟩], none⟩, []⟩ :=
  (gatekeeper_challenge_on_missing_payment _ _ _
    ⟨"/api/protected/weather", "10", "testnet",
     "Access to weather data API (0.00000001 APT)"⟩
    ⟨"exact", "testnet", "0xRECIPIENT", 10, "/api/protected/weather",
     "Access to weather data API (0.00000001 APT)", none⟩
    _ _ _ (by decide) (by rfl) rfl).1

/-- C1: the BuyerOrchestrator performs at most one payment attempt per
original request — every run builds at most one payload and sends at
most one retry, and whenever the original response is a 402 whose
requirements parse, the payload signs, and the retried request is again
answered with a non-200 status (another 402 or an error), the run
terminates FAILED with the seller's stated reason after exactly one
built payload and exactly one retry, never a further payment. -/
theorem buyer_single_payment_attempt
    (first : HttpResponse) (respond : PaymentPayload → HttpResponse)
    (signer : PaymentPayload → Option PaymentPayload) (payer : String) (nonce : Int) :
    ((orchestrate first respond signer payer nonce).2.count BuyerEvent.builtPayment ≤ 1 ∧
     (orchestrate first respond signer payer nonce).2.count BuyerEvent.retrySent ≤ 1) ∧
    (∀ (reqs : PaymentRequirements) (payload : PaymentPayload),
      first.status = 402 →
      decodeChallengeBody first.body = some reqs →
      signer (buildUnsigned reqs payer nonce) = some payload →
      (respond payload).status ≠ 200 →
      orchestrate first respond signer payer nonce =
        (.failed (readReason (respond payload).body),
         [BuyerEvent.builtPayment, BuyerEvent.signedPayment, BuyerEvent.retrySent])) := by
  constructor
  · unfold orchestrate
    split
    · simp
    · split
      · split
        · simp
        · split
          · simp
          · split <;> simp [List.count_cons]
      · simp
  · intro reqs payload h402 hdec hsig hns
    simp only [orchestrate, h402, hdec, hsig]
    simp [hns]

/-- Witness for C1: a concrete 402 challenge, a signer that signs, and a
seller answering the retry with another 402 — the run is FAILED with the
seller's reason after one build, one signature and one retry. -/
theorem buyer_single_payment_attempt_witness :
    orchestrate
        ⟨402, challengeBody
          [⟨"exact", "testnet", "0xRECIPIENT", 10, "/api/protected/weather",
            "Access to weather data API (0.00000001 APT)", none⟩], none⟩
        (fun _ => ⟨402, errBody "REJECTED" "insufficient amount", none⟩)
        (fun u => some ⟨u.scheme, u.network, u.recipient, u.amount, u.resource,
                        u.payer, "sig", u.nonce⟩)
        "0xPAYER" 7 =
      (BuyerOutcome.failed "insufficient amount",
       [BuyerEvent.builtPayment, BuyerEvent.signedPayment, BuyerEvent.retrySent]) :=
  (buyer_single_payment_attempt _ _ _ _ _).2
    ⟨"exact", "testnet", "0xRECIPIENT", 10, "/api/protected/weather",
     "Access to weather data API (0.00000001 APT)", none⟩
    ⟨"exact", "testnet", "0xRECIPIENT", 10, "/api/protected/weather", "0xPAYER", "sig", 7⟩
    rfl (by rfl) (by rfl) (by decide)

/-- C10: on a successful paid exchange the settlement result travels to
the buyer in the X-Payment-Response header as a JSON object whose
settlement field carries txHash and networkId — the gatekeeper attaches
exactly that object on delivery, the demo-script decoding recovers the
pair — and the buyer orchestrator surfaces it to the caller as a
paymentInfo record with fields transactionHash (the settlement hash),
amount and recipient (from the paid requirements) and settled (the
success flag). -/
theorem settlement_header_surfaced_as_paymentInfo :
    (∀ (recipient : String) (routes : List RouteEntry) (req : Request)
       (route : RouteEntry) (reqs : PaymentRequirements) (hdr : Jval)
       (payload : PaymentPayload) (vr : VerifyResult) (sr : SettleResult)
       (handler : Request → HttpResponse),
      routeMatch routes req.path = some route →
      buildChallenge recipient route req.path = Except.ok reqs →
      req.paymentHeader = some hdr →
      decodePayload hdr = some payload →
      vr.valid = true →
      sr.success = true →
      (gatekeeper recipient routes req (.ok vr) handler (.ok sr)).response.xPaymentResponse =
        some (settlementResponseJson sr)) ∧
    (∀ (sr : SettleResult) (h : String),
      sr.success = true →
      sr.txHash = some h →
      settlementResponseJson sr =
        Jval.jobj [("success", Jval.jbool true),
                   ("settlement", Jval.jobj [("txHash", Jval.jstr h),
                                             ("networkId", Jval.jstr sr.network)])] ∧
      decodeSettlementHeader (settlementResponseJson sr) = some (h, sr.network)) ∧
    (∀ (first : HttpResponse) (reqs : PaymentRequirements)
       (signer : PaymentPayload → Option PaymentPayload)
       (payload : PaymentPayload) (payer : String) (nonce : Int)
       (sr : SettleResult) (h : String) (body2 : Jval),
      first.status = 402 →
      decodeChallengeBody first.body = some reqs →
      signer (buildUnsigned reqs payer nonce) = some payload →
      sr.success = true →
      sr.txHash = some h →
      orchestrate first (fun _ => ⟨200, body2, some (settlementResponseJson sr)⟩)
          signer payer nonce =
        (.ok body2 (some ⟨h, reqs.amount, reqs.recipient, true⟩),
         [BuyerEvent.builtPayment, BuyerEvent.signedPayment, BuyerEvent.retrySent])) := by
  refine ⟨?_, ?_, ?_⟩
  · intro recipient routes req route reqs hdr payload vr sr handler
      hmatch hcfg hhdr hdec hval hsucc
    simp only [gatekeeper, hmatch, hcfg, hhdr, hdec, hval, hsucc]
    simp
  · intro sr h hsucc htx
    refine ⟨by simp [settlementResponseJson, hsucc, htx], ?_⟩
    simp [settlementResponseJson, decodeSettlementHeader, htx, jlookup]
  · intro first reqs signer payload payer nonce sr h body2 h402 hdec hsig hsucc htx
    simp only [orchestrate, h402, hdec, hsig]
    simp [extractPaymentInfo, decodeSettlementHeader, settlementResponseJson, readSuccess,
      jlookup, htx, hsucc]

/-- Witness for C10: a concrete successful exchange — the settlement
header attached by the gatekeeper, its decoded txHash/networkId pair,
and the paymentInfo record the buyer run surfaces. -/
theorem settlement_header_surfaced_as_paymentInfo_witness :
    (gatekeeper "0xRECIPIENT"
        [⟨"/api/protected/weather", "10", "testnet",
          "Access to weather data API (0.00000001 APT)"⟩]
        ⟨"/api/protected/weather",
         some (encodePayload ⟨"exact", "testnet", "0xRECIPIENT", 10,
                              "/api/protected/weather", "0xPAYER", "sig", 7⟩)⟩
        (FacOutcome.ok ⟨true, none⟩)
        (fun _ => ⟨200, Jval.jobj [("temp", Jval.jint 72)], none⟩)
        (FacOutcome.ok ⟨true, some "0xTXHASH", "testnet", none⟩)).response.xPaymentResponse =
      some (settlementResponseJson ⟨true, some "0xTXHASH", "testnet", none⟩) ∧
    decodeSettlementHeader
        (settlementResponseJson ⟨true, some "0xTXHASH", "testnet", none⟩) =
      some ("0xTXHASH", "testnet") ∧
    orchestrate
        ⟨402, challengeBody
          [⟨"exact", "testnet", "0xRECIPIENT", 10, "/api/protected/weather",
            "Access to weather data API (0.00000001 APT)", none⟩], none⟩
        (fun _ => ⟨200, Jval.jobj [("temp", Jval.jint 72)],
                   some (settlementResponseJson ⟨true, some "0xTXHASH", "testnet", none⟩)⟩)
        (fun u => some ⟨u.scheme, u.network, u.recipient, u.amount, u.resource,
                        u.payer, "sig", u.nonce⟩)
        "0xPAYER" 7 =
      (BuyerOutcome.ok (Jval.jobj [("temp", Jval.jint 72)])
        (some ⟨"0xTXHASH", 10, "0xRECIPIENT", true⟩),
       [BuyerEvent.builtPayment, BuyerEvent.signedPayment, BuyerEvent.retrySent]) :=
  ⟨settlement_header_surfaced_as_paymentInfo.1 _ _ _
    ⟨"/api/protected/weather", "10", "testnet",
     "Access to weather data API (0.00000001 APT)"⟩
    ⟨"exact", "testnet", "0xRECIPIENT", 10, "/api/protected/weather",
     "Access to weather data API (0.00000001 APT)", none⟩
    _ ⟨"exact", "testnet", "0xRECIPIENT", 10, "/api/protected/weather", "0xPAYER", "sig", 7⟩
    ⟨true, none⟩ ⟨true, some "0xTXHASH", "testnet", none⟩ _
    (by decide) (by rfl) rfl (by rfl) rfl rfl,
   (settlement_header_surfaced_as_paymentInfo.2.1
     ⟨true, some "0xTXHASH", "testnet", none⟩ "0xTXHASH" rfl rfl).2,
   settlement_header_surfaced_as_paymentInfo.2.2 _
    ⟨"exact", "testnet", "0xRECIPIENT", 10, "/api/protected/weather",
     "Access to weather data API (0.00000001 APT)", none⟩
    _ ⟨"exact", "testnet", "0xRECIPIENT", 10, "/api/protected/weather", "0xPAYER", "sig", 7⟩
    "0xPAYER" 7 ⟨true, some "0xTXHASH", "testnet", none⟩ "0xTXHASH" _
    rfl (by rfl) (by rfl) rfl rfl⟩
